import Mathlib

/-!
Shallow embedding of the query fan-out core of the simple-json-backend
datasource (pkg/plugin/plugin.go).

Modelling conventions:
- Raw byte strings that are only ever consumed by JSON (un)marshalling are
  modelled up to JSON parsing as `Option Json`, where `none` stands for bytes
  that are not syntactically valid JSON.  JSON numbers are modelled as
  integers, which covers every payload the claims are about.
- `time.Time` is modelled as an integer instant; `time.Time.String()` is
  modelled by `timeToString`, an injective serialization.
- The network (ctxhttp.Do) is modelled as an oracle `world : Nat -> TransportOutcome`
  giving the outcome of the n-th attempt for the call; `makeHttpRequest`
  additionally returns the number of attempts it consumed.
- The concurrent fan-out of `QueryData` is modelled functionally: each query
  unit is an independent pure function of its own query and its own transport
  outcome, and the result map is the join of all units.
-/

namespace SimpleJsonBackend

/-- JSON values (object fields keep insertion order). -/
inductive Json where
  | null
  | bool (b : Bool)
  | num (n : Int)
  | str (s : String)
  | arr (elems : List Json)
  | obj (fields : List (String × Json))

/-- Look up a key among a JSON object's fields (first occurrence). -/
def getField (fields : List (String × Json)) (key : String) : Option Json :=
  match fields with
  | [] => none
  | (k, v) :: rest => if k = key then some v else getField rest key

/-- Follow a path of object keys through a JSON value. -/
def Json.getPath (j : Json) : List String → Option Json
  | [] => some j
  | k :: ks =>
    match j with
    | .obj fields =>
      match getField fields k with
      | some j' => j'.getPath ks
      | none => none
    | _ => none

/-- Model of `time.Time`: an instant. -/
abbrev Time := Int

/-- Model of `time.Time.String()`: an injective textual serialization. -/
def timeToString (t : Time) : String := toString t

/-- `backend.TimeRange`. -/
structure TimeRange where
  From : Time
  To : Time

/-- `backend.DataQuery`: RefID, the raw query JSON (up to parsing), and the
time range. -/
structure DataQuery where
  RefID : String
  JSON : Option Json
  timeRange : TimeRange

/-- `backend.DataSourceInstanceSettings` (only the URL is used by the core). -/
structure DataSourceInstanceSettings where
  URL : String

/-- `dataSourceInstance` from plugin.go. -/
structure dataSourceInstance where
  settings : DataSourceInstanceSettings

/-- An `http.Request` as built by `http.NewRequest` plus `Header.Add`. -/
structure HttpRequest where
  method : String
  url : String
  headers : List (String × String)
  body : Json

/-- `RemoteDatasourceRequest` from plugin.go. -/
structure RemoteDatasourceRequest where
  queryType : String
  req : HttpRequest
  queries : Json

/-- Outcome of one transport attempt of `ctxhttp.Do`: either a
connection/DNS/timeout failure, or an HTTP response with status code, status
text and body (body modelled up to JSON parsing). -/
inductive TransportOutcome where
  | failure (msg : String)
  | response (statusCode : Nat) (status : String) (body : Option Json)

/-- Modelled from the spec: `TableColumn` is referenced through
`TargetResponseDTO` but its declaration is not under src/; per the API
documentation a table column is an object with a text and a type. -/
structure TableColumn where
  text : String
  type : String

/-- Modelled from the spec: `TargetResponseDTO` is the element type
`parseQueryResponse` unmarshals the upstream body into; its declaration is
not under src/.  Per the spec and the API documentation the upstream response
is an array of per-query result objects, each either a series
(target, datapoints as value/timestamp pairs) or a table (columns, rows,
type discriminator). -/
structure TargetResponseDTO where
  target : String
  datapoints : List (Int × Int)
  columns : List TableColumn
  rows : List (List Json)
  type : String

/-- Decode an optional JSON field into a Go string field: absent or null
gives the zero value, a string gives itself, anything else fails. -/
def decodeStringField : Option Json → Option String
  | none => some ""
  | some .null => some ""
  | some (.str s) => some s
  | some _ => none

/-- Decode one datapoint `[value, timestamp]`. -/
def decodeDatapoint : Json → Option (Int × Int)
  | .arr [.num v, .num t] => some (v, t)
  | _ => none

/-- Decode a list of datapoints. -/
def decodeDatapointList : List Json → Option (List (Int × Int))
  | [] => some []
  | j :: rest =>
    match decodeDatapoint j, decodeDatapointList rest with
    | some p, some ps => some (p :: ps)
    | _, _ => none

/-- Decode the optional `datapoints` field. -/
def decodeDatapoints : Option Json → Option (List (Int × Int))
  | none => some []
  | some .null => some []
  | some (.arr xs) => decodeDatapointList xs
  | some _ => none

/-- Decode one table column object. -/
def decodeTableColumn : Json → Option TableColumn
  | .obj fields =>
    match decodeStringField (getField fields "text"),
          decodeStringField (getField fields "type") with
    | some text, some ty => some ⟨text, ty⟩
    | _, _ => none
  | .null => some ⟨"", ""⟩
  | _ => none

/-- Decode a list of table columns. -/
def decodeColumnList : List Json → Option (List TableColumn)
  | [] => some []
  | j :: rest =>
    match decodeTableColumn j, decodeColumnList rest with
    | some c, some cs => some (c :: cs)
    | _, _ => none

/-- Decode the optional `columns` field. -/
def decodeColumns : Option Json → Option (List TableColumn)
  | none => some []
  | some .null => some []
  | some (.arr xs) => decodeColumnList xs
  | some _ => none

/-- Decode one table row: a JSON array of arbitrary cells. -/
def decodeRow : Json → Option (List Json)
  | .arr cells => some cells
  | .null => some []
  | _ => none

/-- Decode a list of table rows. -/
def decodeRowList : List Json → Option (List (List Json))
  | [] => some []
  | j :: rest =>
    match decodeRow j, decodeRowList rest with
    | some r, some rs => some (r :: rs)
    | _, _ => none

/-- Decode the optional `rows` field. -/
def decodeRows : Option Json → Option (List (List Json))
  | none => some []
  | some .null => some []
  | some (.arr xs) => decodeRowList xs
  | some _ => none

/-- Decode one element of the upstream response array. -/
def decodeTargetResponse : Json → Option TargetResponseDTO
  | .obj fields =>
    match decodeStringField (getField fields "target"),
          decodeDatapoints (getField fields "datapoints"),
          decodeColumns (getField fields "columns"),
          decodeRows (getField fields "rows"),
          decodeStringField (getField fields "type") with
    | some target, some dps, some cols, some rows, some ty =>
      some ⟨target, dps, cols, rows, ty⟩
    | _, _, _, _, _ => none
  | .null => some ⟨"", [], [], [], ""⟩
  | _ => none

/-- Decode the top-level upstream response array. -/
def decodeTargetList : Json → Option (List TargetResponseDTO)
  | .arr xs => decodeTargetListAux xs
  | .null => some []
  | _ => none
where
  decodeTargetListAux : List Json → Option (List TargetResponseDTO)
    | [] => some []
    | j :: rest =>
      match decodeTargetResponse j, decodeTargetListAux rest with
      | some d, some ds => some (d :: ds)
      | _, _ => none

/-- `json.Unmarshal(body, &responseBody)` with `responseBody` of type
`[]TargetResponseDTO`; `none` bytes are not valid JSON at all. -/
def unmarshalTargetResponses : Option Json → Except String (List TargetResponseDTO)
  | none => .error "invalid character in JSON input"
  | some j =>
    match decodeTargetList j with
    | some dtos => .ok dtos
    | none => .error "cannot unmarshal JSON into []TargetResponseDTO"

/-- The typed column vectors of a `data.Field`. -/
inductive FieldValues where
  | times (ts : List Time)
  | ints (vs : List Int)

/-- Length of a field's column vector. -/
def FieldValues.length : FieldValues → Nat
  | .times ts => ts.length
  | .ints vs => vs.length

/-- A `data.Field`: a named, typed column. -/
structure Field where
  name : String
  values : FieldValues

/-- A `data.Frame`: a named list of fields. -/
structure Frame where
  name : String
  Fields : List Field

/-- `backend.DataResponse`: frames plus an optional error. -/
structure DataResponse where
  Frames : List Frame
  Error : Option String

/-- `createMetricRequest` (plugin.go lines 162-190), translated faithfully:
the payload sets path range/to to `q.TimeRange.From.String()` and path
range/from to `q.TimeRange.To.String()` (exactly as the source does), puts
the parsed query JSON under "targets", and builds a POST to URL ++ "/query"
with a Content-Type header.  `simplejson.NewJson` failure is the `none`
case of the query's JSON field; marshalling the payload and
`http.NewRequest` cannot fail for these inputs. -/
def createMetricRequest (q : DataQuery) (inst : dataSourceInstance) :
    Except String RemoteDatasourceRequest :=
  match q.JSON with
  | none => .error "invalid character in JSON input"
  | some jsonQueries =>
    let payload : Json :=
      .obj [("range", .obj [("to", .str (timeToString q.timeRange.From)),
                            ("from", .str (timeToString q.timeRange.To))]),
            ("targets", jsonQueries)]
    let url := inst.settings.URL ++ "/query"
    .ok { queryType := "query"
          req := { method := "POST"
                   url := url
                   headers := [("Content-Type", "application/json")]
                   body := payload }
          queries := jsonQueries }

/-- `makeHttpRequest` (plugin.go lines 192-210): performs the single
`ctxhttp.Do` attempt (the oracle's attempt 0), fails on transport error,
fails with the status message on a non-200 status code, otherwise returns
the body.  The second component counts the transport attempts consumed. -/
def makeHttpRequest (remoteDsReq : RemoteDatasourceRequest)
    (world : Nat → TransportOutcome) :
    Except String (Option Json) × Nat :=
  match world 0 with
  | .failure msg => (.error msg, 1)
  | .response statusCode status body =>
    if statusCode ≠ 200 then
      (.error ("invalid status code. status: " ++ status), 1)
    else
      (.ok body, 1)

/-- `parseQueryResponse` (plugin.go lines 212-309): unmarshals the body into
`[]TargetResponseDTO` and, on unmarshal failure, returns that error;
otherwise ignores the decoded body entirely and returns the hardcoded frame
with a time field `[From, To]` and a values field `[10, 20]`. -/
def parseQueryResponse (query : DataQuery) (body : Option Json) : DataResponse :=
  match unmarshalTargetResponses body with
  | .error e => { Frames := [], Error := some e }
  | .ok _ =>
    let frame : Frame :=
      { name := "response"
        Fields := [ { name := "time"
                      values := .times [query.timeRange.From, query.timeRange.To] },
                    { name := "values"
                      values := .ints [10, 20] } ] }
    { Frames := [frame], Error := none }

/-- `query` (plugin.go lines 139-160): translate, call, decode.  Note line
155 of the source: when `parseQueryResponse` reports an error, the function
returns `backend.DataResponse{Error: err}` where `err` is the nil error left
over from `makeHttpRequest`, so the decode error is dropped and the returned
response has no error and no frames. -/
def query (q : DataQuery) (inst : dataSourceInstance)
    (world : Nat → TransportOutcome) : DataResponse :=
  match createMetricRequest q inst with
  | .error e => { Frames := [], Error := some e }
  | .ok remoteDsReq =>
    match (makeHttpRequest remoteDsReq world).1 with
    | .error e => { Frames := [], Error := some e }
    | .ok body =>
      let res := parseQueryResponse q body
      if res.Error.isSome then { Frames := [], Error := none }
      else res

/-- The result map of a batch: RefID-keyed responses, as built by successive
map writes. -/
abbrev ResultSet := List (String × DataResponse)

/-- One map write `responses.Responses[k] = v`: replaces the entry for `k`
or appends a fresh one. -/
def setEntry (m : ResultSet) (k : String) (v : DataResponse) : ResultSet :=
  match m with
  | [] => [(k, v)]
  | (k', v') :: rest => if k' = k then (k, v) :: rest else (k', v') :: setEntry rest k v

/-- Map lookup. -/
def getEntry (m : ResultSet) (k : String) : Option DataResponse :=
  match m with
  | [] => none
  | (k', v) :: rest => if k' = k then some v else getEntry rest k

/-- `backend.QueryDataRequest` (the part the core consumes). -/
structure QueryDataRequest where
  Queries : List DataQuery

/-- `QueryData` (plugin.go lines 106-137): resolves the instance (a top-level
error if that fails), then runs one unit per query — each the pure pipeline
`query` of its own query and its own transport oracle — and joins all units
into the RefID-keyed result map before returning.  `getInst` models
`ds.getInstance(req.PluginContext)`; `env q` models the network's behavior
for query `q`'s HTTP call. -/
def QueryData (req : QueryDataRequest)
    (getInst : Except String dataSourceInstance)
    (env : DataQuery → Nat → TransportOutcome) :
    Except String ResultSet :=
  match getInst with
  | .error e => .error e
  | .ok inst =>
    .ok (req.Queries.foldl (fun m q => setEntry m q.RefID (query q inst (env q))) [])

/-! Concrete values used by witnesses and counterexamples. -/

/-- A concrete instance with a base URL. -/
def inst0 : dataSourceInstance := ⟨⟨"http://upstream"⟩⟩

/-- A concrete query with RefID "A". -/
def qA : DataQuery := ⟨"A", some (Json.obj []), ⟨0, 1⟩⟩

/-- A concrete query with RefID "B". -/
def qB : DataQuery := ⟨"B", some (Json.arr []), ⟨2, 3⟩⟩

/-- A transport oracle on which every attempt fails at the connection level. -/
def envFail : DataQuery → Nat → TransportOutcome := fun _ _ => .failure "connection refused"

/-! Helper lemmas about the result map. -/

/-- Writing a fresh key appends the entry at the end. -/
theorem setEntry_of_not_mem (m : ResultSet) (k : String) (v : DataResponse)
    (h : k ∉ m.map Prod.fst) : setEntry m k v = m ++ [(k, v)] := by
  induction m with
  | nil => rfl
  | cons p rest ih =>
    obtain ⟨k', v'⟩ := p
    simp only [List.map_cons, List.mem_cons, not_or] at h
    have hne : ¬ (k' = k) := fun hk => h.1 hk.symm
    simp only [setEntry, if_neg hne, List.cons_append, ih h.2]

/-- Folding fresh-keyed writes over a batch appends one entry per query, each
holding that query's own result. -/
theorem foldl_setEntry_eq_append (f : DataQuery → DataResponse)
    (qs : List DataQuery) :
    ∀ acc : ResultSet,
      (qs.map fun q => q.RefID).Nodup →
      (∀ q ∈ qs, q.RefID ∉ acc.map Prod.fst) →
      List.foldl (fun m q => setEntry m q.RefID (f q)) acc qs
        = acc ++ (qs.map fun q => (q.RefID, f q)) := by
  induction qs with
  | nil => intro acc _ _; simp
  | cons q qs ih =>
    intro acc hnd hacc
    simp only [List.map_cons, List.nodup_cons] at hnd
    have hfresh : ∀ q' ∈ qs, q'.RefID ∉ (acc ++ [(q.RefID, f q)]).map Prod.fst := by
      intro q' hq'
      simp only [List.map_append, List.mem_append, List.map_cons, List.map_nil,
        List.mem_singleton, not_or]
      refine ⟨hacc q' (List.mem_cons_of_mem _ hq'), fun heq => ?_⟩
      exact hnd.1 (heq ▸ List.mem_map_of_mem _ hq')
    simp only [List.foldl_cons]
    rw [setEntry_of_not_mem _ _ _ (hacc q (List.mem_cons_self q qs)),
      ih (acc ++ [(q.RefID, f q)]) hnd.2 hfresh]
    simp

/-- Looking up a query's key in the joined map yields that query's own result. -/
theorem getEntry_map_self (f : DataQuery → DataResponse) (qs : List DataQuery)
    (q : DataQuery) (hnd : (qs.map fun x => x.RefID).Nodup) (hq : q ∈ qs) :
    getEntry (qs.map fun x => (x.RefID, f x)) q.RefID = some (f q) := by
  induction qs with
  | nil => cases hq
  | cons x qs ih =>
    simp only [List.map_cons, List.nodup_cons] at hnd
    rcases List.mem_cons.mp hq with h | h
    · subst h
      simp [getEntry]
    · have hne : x.RefID ≠ q.RefID := fun heq => hnd.1 (heq ▸ List.mem_map_of_mem _ h)
      simp only [List.map_cons, getEntry, if_neg hne]
      exact ih hnd.2 h

/-! The claims. -/

/-- Claim C1: for every batch of N >= 0 queries whose reference identifiers
are distinct (the batch validity invariant of the data model), QueryData
returns a ResultSet with exactly one entry per input Query, keyed by that
Query's RefID, with no duplicates and no omissions, and each Query's slot
holds that Query's own pipeline result — regardless of how many pipelines
fail (the transport oracle is universally quantified). -/
theorem queryData_one_entry_per_query (req : QueryDataRequest)
    (inst : dataSourceInstance) (env : DataQuery → Nat → TransportOutcome)
    (hnd : (req.Queries.map fun q => q.RefID).Nodup) :
    ∃ rs, QueryData req (.ok inst) env = .ok rs
      ∧ rs = (req.Queries.map fun q => (q.RefID, query q inst (env q)))
      ∧ rs.map Prod.fst = (req.Queries.map fun q => q.RefID)
      ∧ rs.length = req.Queries.length
      ∧ ∀ q ∈ req.Queries, getEntry rs q.RefID = some (query q inst (env q)) := by
  have h := foldl_setEntry_eq_append (fun q => query q inst (env q)) req.Queries []
    hnd (by simp)
  simp only [List.nil_append] at h
  refine ⟨_, rfl, h, ?_, ?_, ?_⟩
  · rw [h, List.map_map]
    rfl
  · rw [h, List.length_map]
  · intro q hq
    rw [h]
    exact getEntry_map_self _ _ _ hnd hq

/-- Witness for C1 at a concrete two-query batch on which every HTTP call
fails. -/
theorem queryData_one_entry_per_query_witness :
    ∃ rs, QueryData ⟨[qA, qB]⟩ (.ok inst0) envFail = .ok rs
      ∧ rs.map Prod.fst = ["A", "B"] ∧ rs.length = 2 := by
  obtain ⟨rs, h1, _, h3, h4, _⟩ :=
    queryData_one_entry_per_query ⟨[qA, qB]⟩ inst0 envFail (by decide)
  exact ⟨rs, h1, h3.trans rfl, h4⟩

/-- Claim C3: the batch call returns only with a result joined from all N
units, also when every unit fails (no short-circuit: the oracle below is
arbitrary, so in particular all-failing); each unit's slot is the pure
pipeline of its own query and its own transport outcome, so changing the
environment of sibling queries neither cancels nor alters it. -/
theorem queryData_joins_all_units (req : QueryDataRequest)
    (inst : dataSourceInstance) (env env' : DataQuery → Nat → TransportOutcome)
    (q : DataQuery)
    (hnd : (req.Queries.map fun x => x.RefID).Nodup)
    (hq : q ∈ req.Queries)
    (hagree : env q = env' q) :
    ∃ rs rs', QueryData req (.ok inst) env = .ok rs
      ∧ QueryData req (.ok inst) env' = .ok rs'
      ∧ getEntry rs q.RefID = some (query q inst (env q))
      ∧ getEntry rs' q.RefID = getEntry rs q.RefID := by
  have h := foldl_setEntry_eq_append (fun x => query x inst (env x)) req.Queries []
    hnd (by simp)
  have h' := foldl_setEntry_eq_append (fun x => query x inst (env' x)) req.Queries []
    hnd (by simp)
  simp only [List.nil_append] at h h'
  refine ⟨_, _, rfl, rfl, ?_, ?_⟩
  · rw [h]
    exact getEntry_map_self _ _ _ hnd hq
  · rw [h, h', getEntry_map_self _ _ _ hnd hq, getEntry_map_self _ _ _ hnd hq, hagree]

/-- Witness for C3: a batch where query B's upstream fails while query A's
succeeds; switching B's outcome between two environments leaves A's slot
unchanged. -/
theorem queryData_joins_all_units_witness :
    ∃ rs rs',
      QueryData ⟨[qA, qB]⟩ (.ok inst0)
          (fun x _ => if x.RefID = "B" then .failure "boom"
                      else .response 200 "200 OK" (some Json.null)) = .ok rs
      ∧ QueryData ⟨[qA, qB]⟩ (.ok inst0)
          (fun x _ => if x.RefID = "B" then .failure "other boom"
                      else .response 200 "200 OK" (some Json.null)) = .ok rs'
      ∧ getEntry rs "A"
        = some (query qA inst0
            (fun _ => if qA.RefID = "B" then TransportOutcome.failure "boom"
                      else .response 200 "200 OK" (some Json.null)) )
      ∧ getEntry rs' "A" = getEntry rs "A" := by
  obtain ⟨rs, rs', h1, h2, h3, h4⟩ :=
    queryData_joins_all_units ⟨[qA, qB]⟩ inst0
      (fun x _ => if x.RefID = "B" then .failure "boom"
                  else .response 200 "200 OK" (some Json.null))
      (fun x _ => if x.RefID = "B" then .failure "other boom"
                  else .response 200 "200 OK" (some Json.null))
      qA (by decide) (List.mem_cons_self qA [qB]) rfl
  exact ⟨rs, rs', h1, h2, h3, h4⟩

/-- Claim C2, evaluated at its failing input: a per-query pipeline whose
decode step fails (upstream returned 200 with a body that does not unmarshal
into the expected shape) does NOT get its error captured in its slot — the
pipeline returns a response with no error and no frames, because line 155 of
plugin.go returns the stale nil HTTP error instead of the decode error. -/
theorem query_decode_error_not_captured :
    (parseQueryResponse qA (some (Json.str "oops"))).Error.isSome = true
    ∧ query qA inst0 (fun _ => .response 200 "200 OK" (some (Json.str "oops")))
      = { Frames := [], Error := none } := by
  exact ⟨rfl, rfl⟩

/-- Claim C4, evaluated at its failing input: createMetricRequest writes the
time-range END into range/from and the time-range START into range/to — the
two bounds are swapped relative to the wire contract. -/
theorem createMetricRequest_range_swapped :
    ∃ r, createMetricRequest qB inst0 = .ok r
      ∧ qB.timeRange.From = (2 : Int) ∧ qB.timeRange.To = (3 : Int)
      ∧ Json.getPath r.req.body ["range", "from"] = some (.str (timeToString 3))
      ∧ Json.getPath r.req.body ["range", "to"] = some (.str (timeToString 2))
      ∧ timeToString 2 ≠ timeToString 3 := by
  exact ⟨_, rfl, rfl, rfl, rfl, rfl, by decide⟩

/-- An upstream table response whose time column would have two entries while
its number column has one: the rows are ragged, so the column lengths
mismatch. -/
def mismatchedBody : Json :=
  .arr [ .obj [ ("columns", .arr [ .obj [("text", .str "Time"), ("type", .str "time")],
                                   .obj [("text", .str "Number"), ("type", .str "number")] ]),
                ("rows", .arr [ .arr [.num 1000, .num 5], .arr [.num 2000] ]),
                ("type", .str "table") ] ]

/-- Claim C5, evaluated at its failing input: a body with mismatched column
lengths unmarshals successfully and parseQueryResponse returns a SUCCESS
(hardcoded frame, no error), not a DecodeError — the source performs no
length check at all. -/
theorem parseQueryResponse_no_length_check :
    unmarshalTargetResponses (some mismatchedBody)
      = .ok [⟨"", [], [⟨"Time", "time"⟩, ⟨"Number", "number"⟩],
              [[.num 1000, .num 5], [.num 2000]], "table"⟩]
    ∧ (parseQueryResponse qA (some mismatchedBody)).Error = none
    ∧ (parseQueryResponse qA (some mismatchedBody)).Frames.length = 1 := by
  exact ⟨rfl, rfl, rfl⟩

/-- Claim C6: makeHttpRequest consumes exactly one transport attempt on every
call (no retry on any failure), and when the single attempt yields a response
with a status other than 200 it fails with an error carrying that HTTP
status. -/
theorem makeHttpRequest_non200_single_attempt
    (remoteDsReq : RemoteDatasourceRequest) (world : Nat → TransportOutcome) :
    (makeHttpRequest remoteDsReq world).2 = 1
    ∧ ∀ statusCode status body,
        world 0 = .response statusCode status body → statusCode ≠ 200 →
        (makeHttpRequest remoteDsReq world).1
          = .error ("invalid status code. status: " ++ status) := by
  constructor
  · unfold makeHttpRequest
    rcases world 0 with msg | ⟨c, s, b⟩
    · rfl
    · by_cases hc : c ≠ 200 <;> simp [hc]
  · intro statusCode status body hw hne
    unfold makeHttpRequest
    rw [hw]
    simp [hne]

/-- Witness for C6 at a concrete request and a 500 response. -/
theorem makeHttpRequest_non200_single_attempt_witness :
    (makeHttpRequest ⟨"query", ⟨"POST", "http://upstream/query",
        [("Content-Type", "application/json")], Json.obj []⟩, Json.obj []⟩
        (fun _ => .response 500 "500 Internal Server Error" none)).2 = 1
    ∧ (makeHttpRequest ⟨"query", ⟨"POST", "http://upstream/query",
        [("Content-Type", "application/json")], Json.obj []⟩, Json.obj []⟩
        (fun _ => .response 500 "500 Internal Server Error" none)).1
      = .error ("invalid status code. status: " ++ "500 Internal Server Error") :=
  ⟨(makeHttpRequest_non200_single_attempt _ _).1,
   (makeHttpRequest_non200_single_attempt _ _).2 500 "500 Internal Server Error" none
     rfl (by decide)⟩

/-- Claim C7: for every query whose raw payload parses as JSON, the
translator builds a POST to the base URL with "/query" appended, with a
Content-Type application/json header, and with the parsed payload passed
through unchanged under the fixed key "targets". -/
theorem createMetricRequest_post_targets (refId : String) (j : Json)
    (tr : TimeRange) (inst : dataSourceInstance) :
    ∃ r, createMetricRequest ⟨refId, some j, tr⟩ inst = .ok r
      ∧ r.req.method = "POST"
      ∧ r.req.url = inst.settings.URL ++ "/query"
      ∧ ("Content-Type", "application/json") ∈ r.req.headers
      ∧ Json.getPath r.req.body ["targets"] = some j
      ∧ r.queries = j := by
  refine ⟨_, rfl, rfl, rfl, List.mem_singleton.mpr rfl, ?_, rfl⟩
  rfl

/-- Claim C8: a zero-query batch yields an empty ResultSet and no top-level
error (the fold over the empty batch performs no per-query work). -/
theorem queryData_empty_batch (inst : dataSourceInstance)
    (env : DataQuery → Nat → TransportOutcome) :
    QueryData ⟨[]⟩ (.ok inst) env = .ok [] := rfl

/-- Claim C9: whenever the translate and HTTP steps succeed but
parseQueryResponse reports an error, the per-query pipeline returns a
DataResponse with no error and no frames — the decode error is silently
dropped. -/
theorem query_drops_decode_error (refId : String) (j : Json) (tr : TimeRange)
    (inst : dataSourceInstance) (world : Nat → TransportOutcome)
    (status : String) (body : Option Json)
    (hw : world 0 = .response 200 status body)
    (herr : (parseQueryResponse ⟨refId, some j, tr⟩ body).Error.isSome = true) :
    query ⟨refId, some j, tr⟩ inst world = { Frames := [], Error := none } := by
  unfold query createMetricRequest makeHttpRequest
  rw [hw]
  simp [herr]

/-- Witness for C9: upstream returns 200 with a body that is not valid JSON;
the query's slot carries neither frames nor an error message. -/
theorem query_drops_decode_error_witness :
    query ⟨"B", some (Json.arr []), ⟨2, 3⟩⟩ inst0
        (fun _ => .response 200 "200 OK" none)
      = { Frames := [], Error := none } :=
  query_drops_decode_error "B" (Json.arr []) ⟨2, 3⟩ inst0
    (fun _ => .response 200 "200 OK" none) "200 OK" none rfl rfl

/-- Claim C10: any two upstream bodies on which decoding succeeds produce the
same decoded result, namely the fixed frame whose time column is
[From, To] and whose values column is [10, 20] — the success output depends
only on the query's time range, never on the body content. -/
theorem parseQueryResponse_ignores_body (q : DataQuery) (b1 b2 : Option Json)
    (h1 : (parseQueryResponse q b1).Error = none)
    (h2 : (parseQueryResponse q b2).Error = none) :
    parseQueryResponse q b1 = parseQueryResponse q b2
    ∧ parseQueryResponse q b1
      = { Frames := [ { name := "response"
                        Fields := [ ⟨"time", .times [q.timeRange.From, q.timeRange.To]⟩,
                                    ⟨"values", .ints [10, 20]⟩ ] } ]
          Error := none } := by
  rcases hu1 : unmarshalTargetResponses b1 with e1 | d1 <;>
    rcases hu2 : unmarshalTargetResponses b2 with e2 | d2 <;>
      simp_all [parseQueryResponse]

/-- Witness for C10 at two distinct concrete bodies that both decode
successfully. -/
theorem parseQueryResponse_ignores_body_witness :
    parseQueryResponse qA (some Json.null) = parseQueryResponse qA (some (Json.arr []))
    ∧ parseQueryResponse qA (some Json.null)
      = { Frames := [ { name := "response"
                        Fields := [ ⟨"time", .times [(0 : Int), (1 : Int)]⟩,
                                    ⟨"values", .ints [10, 20]⟩ ] } ]
          Error := none } :=
  parseQueryResponse_ignores_body qA (some Json.null) (some (Json.arr [])) rfl rfl

end SimpleJsonBackend
